import Mathlib

/-!
Shallow embedding of the release/pointer/health subsystem of the `ploy`
repository, together with proofs about its specified properties.

Embedded source files:
* `src/utils/junction/index.ts` (newer layout, `src/unnamed/part_005`):
  `isJunction`, `create`, `remove`, `update`, `getTarget`.
* `src/utils/healthcheck` (`src/unnamed/part_004`): `parseCodeRange`,
  `isStatusCodeInRange`, `performHealthCheckRequest`, `performHealthCheck`.
* `src/action/steps` prepare-release (`src/unnamed/part_009`):
  `generateTimestamp`, `getShortSha`, `createReleaseDirectory`.

The filesystem is modelled as a flat map from paths to entries; JavaScript
strings and numbers are modelled with `String`, `Nat` and `Int`; promise
rejection / thrown errors are modelled with `Except`.
-/

namespace Ploy

/-! ### JavaScript string and number helpers -/

/-- JS `String(n)` digit list for a positive natural, fuel-based
(fuel `n` is always enough since `n / 10 < n`). -/
def natDigitsAux : Nat → Nat → List Char
  | 0, _ => []
  | _ + 1, 0 => []
  | fuel + 1, n + 1 =>
    natDigitsAux fuel ((n + 1) / 10) ++ [Char.ofNat (48 + (n + 1) % 10)]

/-- JS `String(n)` for a natural number (decimal rendering). -/
def natToString (n : Nat) : String :=
  if n = 0 then ("0") else String.mk (natDigitsAux n n)

/-- JS `String(i)` for a possibly negative number. -/
def intToString (i : Int) : String :=
  match i with
  | Int.ofNat n => natToString n
  | Int.negSucc n => ("-") ++ natToString (n + 1)

/-- JS `s.split(sep)` for a single-character separator, on char lists. -/
def splitOnChar (sep : Char) : List Char → List (List Char)
  | [] => [[]]
  | c :: rest =>
    let r := splitOnChar sep rest
    if c = sep then [] :: r
    else
      match r with
      | [] => [[c]]
      | h :: t => (c :: h) :: t

/-- JS `s.trim()` on a char list: strip leading and trailing whitespace. -/
def jsTrimChars (l : List Char) : List Char :=
  ((l.dropWhile Char.isWhitespace).reverse.dropWhile Char.isWhitespace).reverse

/-- Value of a decimal digit prefix; `none` when there is no leading digit
(the `NaN` case of `parseInt`). -/
def digitsPrefixVal (l : List Char) : Option Nat :=
  let ds := l.takeWhile Char.isDigit
  if ds.isEmpty then none
  else some (ds.foldl (fun acc c => acc * 10 + (c.toNat - 48)) 0)

/-- JS `parseInt(s, 10)` on a char list: optional sign, then the longest
decimal digit prefix; `none` models `NaN`. -/
def jsParseInt (l : List Char) : Option Int :=
  match l with
  | '-' :: rest => (digitsPrefixVal rest).map (fun n => -(n : Int))
  | '+' :: rest => (digitsPrefixVal rest).map (fun n => (n : Int))
  | _ => (digitsPrefixVal l).map (fun n => (n : Int))

/-- JS truthiness of a `string | undefined` value: `undefined` and the
empty string are falsy. -/
def strTruthy : Option String → Bool
  | some s => s != ("")
  | none => false

/-- JS `a || b` where `a : string | undefined` and `b : string`. -/
def jsOrStr : Option String → String → String
  | some s, b => if s = ("") then b else s
  | none, b => b

/-- JS `s.padStart(len, c)`. -/
def padStart (s : String) (len : Nat) (c : Char) : String :=
  if len ≤ s.length then s
  else String.mk (List.replicate (len - s.length) c) ++ s

/-- JS `s.substring(0, n)` (first `n` characters). -/
def strTake (s : String) (n : Nat) : String :=
  String.mk (s.data.take n)

/-! ### Filesystem model for the active-pointer (junction) subsystem

A flat map from path strings to entries.  A `junction` entry is a
redirect-type filesystem entry (symlink / Windows junction); `file` and
`dir` are ordinary entries.  Contents of a directory are simply the
entries stored at other paths of the map. -/

/-- A directory entry as distinguished by `lstat`. -/
inductive Entry where
  | file
  | dir
  | junction (target : String)
deriving DecidableEq, Repr

/-- Models `stats.isSymbolicLink()`: on Windows, Node reports junctions as
symbolic links. -/
def Entry.isSymbolicLink : Entry → Bool
  | Entry.junction _ => true
  | _ => false

/-- The filesystem: a flat map from paths to entries. -/
def FS : Type := String → Option Entry

/-- A JavaScript-level error: either a Node error (identified by its
`code` property) or a `new Error(message)`. -/
inductive JsError where
  | node (code : String)
  | err (msg : String)
deriving DecidableEq, Repr

/-- Models `fs.lstat(p)`: stat without following redirects; `ENOENT` if absent.
Errors carry the Node error code. -/
def fsLstat (fs : FS) (p : String) : Except String Entry :=
  match fs p with
  | none => Except.error ("ENOENT")
  | some e => Except.ok e

/-- Models `fs.unlink(p)`: removes the entry at `p` only, never any other path;
`ENOENT` if absent, `EISDIR` if `p` is a plain directory. -/
def fsUnlink (fs : FS) (p : String) : Except String FS :=
  match fs p with
  | none => Except.error ("ENOENT")
  | some Entry.dir => Except.error ("EISDIR")
  | some Entry.file => Except.ok (fun q => if q = p then none else fs q)
  | some (Entry.junction _) => Except.ok (fun q => if q = p then none else fs q)

/-- Models `fs.symlink(target, p, junction-type)`: fails with `EEXIST` when `p`
already exists at the link level (even as a dangling redirect). -/
def fsSymlink (fs : FS) (target p : String) : Except String FS :=
  match fs p with
  | some _ => Except.error ("EEXIST")
  | none => Except.ok (fun q => if q = p then some (Entry.junction target) else fs q)

/-- Models `fs.readlink(p)`: the raw redirect target; `ENOENT` when absent,
`EINVAL` when the entry is not a redirect. -/
def fsReadlink (fs : FS) (p : String) : Except String String :=
  match fs p with
  | none => Except.error ("ENOENT")
  | some (Entry.junction t) => Except.ok t
  | some Entry.file => Except.error ("EINVAL")
  | some Entry.dir => Except.error ("EINVAL")

/-- Redirect-following existence probe, with fuel bounding the redirect
chain length (the OS resolution limit); a dangling redirect resolves to
"does not exist". -/
def resolveExists (fs : FS) : Nat → String → Bool
  | 0, _ => false
  | fuel + 1, p =>
    match fs p with
    | none => false
    | some Entry.file => true
    | some Entry.dir => true
    | some (Entry.junction t) => resolveExists fs fuel t

/-- Models `fs.access(p)` succeeding, i.e. existence after redirect resolution. -/
def fsAccessOk (fs : FS) (p : String) : Bool :=
  resolveExists fs 40 p

/-! ### `src/utils/junction` (part_005): the active-pointer operations -/

/-- Embeds `isJunction(targetPath)`: `lstat`-based redirect-type probe; absence
yields `false`, other `lstat` failures are rethrown. -/
def isJunction (fs : FS) (p : String) : Except JsError Bool :=
  match fsLstat fs p with
  | Except.ok st => Except.ok st.isSymbolicLink
  | Except.error code =>
    if code = ("ENOENT") then Except.ok false else Except.error (JsError.node code)

/-- Embeds `create(junctionPath, targetPath)`: creates the redirect; failures are
wrapped in a `new Error` (the Node code stands in for the Node message). -/
def create (fs : FS) (junctionPath targetPath : String) : Except JsError FS :=
  match fsSymlink fs targetPath junctionPath with
  | Except.ok fs2 => Except.ok fs2
  | Except.error code =>
    Except.error (JsError.err (("Failed to create junction: ") ++ code))

/-- Embeds `remove(junctionPath)`: deletes the redirect entry via `fs.unlink`;
absence is tolerated, other failures are wrapped in a `new Error`. -/
def remove (fs : FS) (junctionPath : String) : Except JsError FS :=
  match fsUnlink fs junctionPath with
  | Except.ok fs2 => Except.ok fs2
  | Except.error code =>
    if code = ("ENOENT") then Except.ok fs
    else Except.error (JsError.err (("Failed to remove junction: ") ++ code))

/-- Embeds `update(junctionPath, newPath)` — the pointer swap.  Returns the
outcome together with the filesystem state left behind (a thrown error
leaves whatever mutations already happened). -/
def update (fs : FS) (junctionPath newPath : String) : Except JsError Unit × FS :=
  if fsAccessOk fs junctionPath then
    match isJunction fs junctionPath with
    | Except.error e => (Except.error e, fs)
    | Except.ok false =>
      (Except.error (JsError.err (junctionPath ++
        (" exists but is not a junction. Manual intervention required to avoid data loss."))), fs)
    | Except.ok true =>
      match remove fs junctionPath with
      | Except.error e => (Except.error e, fs)
      | Except.ok fs1 =>
        match create fs1 junctionPath newPath with
        | Except.error e => (Except.error e, fs1)
        | Except.ok fs2 => (Except.ok (), fs2)
  else
    match create fs junctionPath newPath with
    | Except.error e => (Except.error e, fs)
    | Except.ok fs2 => (Except.ok (), fs2)

/-- Models the replace of the trailing-backslash regex by the empty
string: strip trailing backslashes. -/
def stripTrailingBackslashes (s : String) : String :=
  String.mk ((s.data.reverse.dropWhile (fun c => c = '\\')).reverse)

/-- Embeds `getTarget(junctionPath)`: `readlink` with every failure mapped to
`undefined` (the source catches all errors). -/
def getTarget (fs : FS) (p : String) : Option String :=
  match fsReadlink fs p with
  | Except.ok t => some (stripTrailingBackslashes t)
  | Except.error _ => none

/-! ### `src/utils/healthcheck` (part_004): the health verifier

The network is modelled by an oracle `env : Nat → AttemptOutcome` giving
the outcome the `fetch` of each (1-based) attempt would have.  Each run
also produces the list of observable events (initial delay, HTTP request,
inter-attempt wait), so that "no network request was made" is a statement
about the event trace. -/

/-- Outcome of one `fetch` call: a response with a status code, an
`AbortError` deadline expiry, or another transport-level failure. -/
inductive AttemptOutcome where
  | response (status : Int)
  | timeout
  | netFailure (msg : String)
deriving DecidableEq, Repr

/-- Return value of `performHealthCheckRequest`. -/
structure ReqResult where
  statusCode : Int
  success : Bool
  error : Option String
deriving DecidableEq, Repr

/-- Embeds `HealthCheckResult` from `src/types.ts` (optional fields as
`Option`). -/
structure HealthCheckResult where
  success : Bool
  statusCode : Option Int
  attempts : Nat
  error : Option String
deriving DecidableEq, Repr

/-- Observable side effects of the verifier loop. -/
inductive Event where
  | initialDelay (seconds : Int)
  | request
  | intervalWait (seconds : Int)
deriving DecidableEq, Repr

/-- Embeds `parseCodeRange(range)`: split on the dash, `parseInt` each trimmed
part; throws unless exactly two integers result. -/
def parseCodeRange (range : String) : Except String (Int × Int) :=
  match (splitOnChar '-' range.data).map (fun p => jsParseInt (jsTrimChars p)) with
  | [some a, some b] => Except.ok (a, b)
  | _ => Except.error (("Invalid health check code range: ") ++ range ++
      (". Expected format: \"200-299\""))

/-- Embeds `isStatusCodeInRange(statusCode, range)`: parses the range (possibly
throwing) and tests inclusive membership. -/
def isStatusCodeInRange (statusCode : Int) (range : String) : Except String Bool :=
  match parseCodeRange range with
  | Except.error e => Except.error e
  | Except.ok (mn, mx) => Except.ok (decide (mn ≤ statusCode ∧ statusCode ≤ mx))

/-- Embeds `performHealthCheckRequest(url, timeout)` applied to the oracle's
outcome for the attempt: a received response reports its status (with
`response.ok` as 200–299), transport failures report status 0 and an
error message, deadline expiry a distinct "timed out" message. -/
def performHealthCheckRequest (_url : String) (timeoutSecs : Int) :
    AttemptOutcome → ReqResult
  | AttemptOutcome.response s =>
    { statusCode := s, success := decide (200 ≤ s ∧ s < 300), error := none }
  | AttemptOutcome.timeout =>
    { statusCode := 0, success := false,
      error := some (("Request timed out after ") ++ intToString timeoutSecs ++ (" seconds")) }
  | AttemptOutcome.netFailure msg =>
    { statusCode := 0, success := false, error := some msg }

/-- The retry loop of `performHealthCheck`: recursion on the number of
remaining attempts, with the 1-based attempt counter and the
`lastStatusCode` / `lastError` mutable locals threaded through.  Returns
the outcome together with the emitted event trace. -/
def healthLoop (url range : String) (timeoutSecs intervalSecs : Int)
    (retries : Nat) (env : Nat → AttemptOutcome) :
    Nat → Nat → Option Int → Option String →
    Except String HealthCheckResult × List Event
  | 0, _, lastStatus, lastErr =>
    (Except.ok { success := false, statusCode := lastStatus, attempts := retries,
                 error := some (jsOrStr lastErr ("Health check failed")) }, [])
  | remaining + 1, attempt, _, _ =>
    let result := performHealthCheckRequest url timeoutSecs (env attempt)
    if strTruthy result.error then
      let rest := healthLoop url range timeoutSecs intervalSecs retries env
        remaining (attempt + 1) (some result.statusCode) result.error
      (rest.1, Event.request ::
        ((if attempt < retries then [Event.intervalWait intervalSecs] else []) ++ rest.2))
    else
      match isStatusCodeInRange result.statusCode range with
      | Except.error e => (Except.error e, [Event.request])
      | Except.ok true =>
        (Except.ok { success := true, statusCode := some result.statusCode,
                     attempts := attempt, error := none }, [Event.request])
      | Except.ok false =>
        let rest := healthLoop url range timeoutSecs intervalSecs retries env
          remaining (attempt + 1) (some result.statusCode)
          (some (("Status code ") ++ intToString result.statusCode ++
            (" is outside expected range ") ++ range))
        (rest.1, Event.request ::
          ((if attempt < retries then [Event.intervalWait intervalSecs] else []) ++ rest.2))

/-- Embeds `performHealthCheck(url, expectedCodeRange, timeout, retries, delay,
interval)`: optional initial delay, then the bounded retry loop with
fresh `lastStatusCode` / `lastError`. -/
def performHealthCheck (url range : String) (timeoutSecs : Int) (retries : Nat)
    (delaySecs intervalSecs : Int) (env : Nat → AttemptOutcome) :
    Except String HealthCheckResult × List Event :=
  let r := healthLoop url range timeoutSecs intervalSecs retries env retries 1 none none
  (r.1, (if delaySecs > 0 then [Event.initialDelay delaySecs] else []) ++ r.2)

/-- Whether an event is an HTTP request. -/
def isRequestEvent : Event → Bool
  | Event.request => true
  | _ => false

/-- Whether an event is an inter-attempt wait. -/
def isWaitEvent : Event → Bool
  | Event.intervalWait _ => true
  | _ => false

/-- Number of HTTP requests in a trace. -/
def countRequests (evs : List Event) : Nat :=
  evs.countP isRequestEvent

/-- Number of inter-attempt waits in a trace. -/
def countWaits (evs : List Event) : Nat :=
  evs.countP isWaitEvent

/-- Whether one attempt outcome makes the verifier succeed for the parsed
range `[mn, mx]`: the request must have produced a (truthy-error-free)
response whose status lies in the inclusive range. -/
def attemptSucceeds (mn mx : Int) (url : String) (timeoutSecs : Int)
    (o : AttemptOutcome) : Bool :=
  let r := performHealthCheckRequest url timeoutSecs o
  !(strTruthy r.error) && decide (mn ≤ r.statusCode ∧ r.statusCode ≤ mx)

/-! ### Release store (part_009 / `src/action/utils/dirs`)

For `mkdir -p` the filesystem is modelled with component-list paths, so
that the ancestors of a path are well defined. -/

/-- An entry of the directory-tree filesystem. -/
inductive DirEntry where
  | dir
  | file
deriving DecidableEq, Repr

/-- Filesystem keyed by path component lists. -/
def DirFS : Type := List String → Option DirEntry

/-- Models the `fs.mkdir(p, recursive)` worker: walk the components, creating each
missing prefix as a directory; an existing directory is fine, an existing
non-directory fails. -/
def mkdirRecAux (fs : DirFS) (pre : List String) : List String → Except String DirFS
  | [] => Except.ok fs
  | c :: rest =>
    match fs (pre ++ [c]) with
    | some DirEntry.dir => mkdirRecAux fs (pre ++ [c]) rest
    | some DirEntry.file =>
      if rest.isEmpty then Except.error ("EEXIST") else Except.error ("ENOTDIR")
    | none =>
      mkdirRecAux (fun q => if q = pre ++ [c] then some DirEntry.dir else fs q)
        (pre ++ [c]) rest

/-- Models `fs.mkdir` with the recursive option. -/
def mkdirRecursive (fs : DirFS) (p : List String) : Except String DirFS :=
  mkdirRecAux fs [] p

/-- Models `path.join` over components (separator-normalised join). -/
def pathJoin : List String → String
  | [] => ("")
  | [x] => x
  | x :: rest => x ++ ("/") ++ pathJoin rest

/-- Embeds `createReleaseDirectory(deployRoot, releaseId)`: joins
`deployRoot/releases/releaseId`, creates it recursively and returns the
path; failures are wrapped in a `new Error`. -/
def createReleaseDirectory (fs : DirFS) (deployRoot : List String)
    (releaseId : String) : Except String (String × DirFS) :=
  match mkdirRecursive fs (deployRoot ++ [("releases"), releaseId]) with
  | Except.ok fs2 => Except.ok (pathJoin (deployRoot ++ [("releases"), releaseId]), fs2)
  | Except.error e => Except.error (("Failed to create release directory: ") ++ e)

/-- Two successive allocations of the same release id, returning both
reported paths. -/
def allocTwice (fs : DirFS) (deployRoot : List String) (releaseId : String) :
    Except String (String × String) :=
  match createReleaseDirectory fs deployRoot releaseId with
  | Except.error e => Except.error e
  | Except.ok (p1, fs1) =>
    match createReleaseDirectory fs1 deployRoot releaseId with
    | Except.error e => Except.error e
    | Except.ok (p2, _) => Except.ok (p1, p2)

/-! ### Identity generator (part_009) -/

/-- A wall-clock reading as decomposed by the JS `Date` getters; `month`
is already 1-based (the source computes `getMonth() + 1`). -/
structure DateTime where
  year : Nat
  month : Nat
  day : Nat
  hours : Nat
  minutes : Nat
  seconds : Nat
deriving DecidableEq, Repr

/-- Models `String(x).padStart(2, zero)`. -/
def pad2 (n : Nat) : String :=
  padStart (natToString n) 2 '0'

/-- Embeds `generateTimestamp()`: unpadded year, then zero-padded month, day,
a dash, and zero-padded hours, minutes, seconds. -/
def generateTimestamp (d : DateTime) : String :=
  natToString d.year ++ pad2 d.month ++ pad2 d.day ++ ("-") ++
    pad2 d.hours ++ pad2 d.minutes ++ pad2 d.seconds

/-- Embeds `getShortSha()`: the JS falsy-chain over the three environment
variables with literal fallback, then `substring(0, 7)`. -/
def getShortSha (githubSha giteaSha ciCommitSha : Option String) : String :=
  strTake (jsOrStr githubSha (jsOrStr giteaSha (jsOrStr ciCommitSha ("unknown")))) 7

/-- The release identifier `${timestamp}-${shortSha}` built by the
prepare-release step. -/
def releaseId (d : DateTime) (githubSha giteaSha ciCommitSha : Option String) : String :=
  generateTimestamp d ++ ("-") ++ getShortSha githubSha giteaSha ciCommitSha

/-- Modelled from the spec: the fixed-width `YYYYMMDD-HHMMSS` timestamp
with a zero-padded four-digit year, for comparison with
`generateTimestamp`. -/
def specTimestamp (d : DateTime) : String :=
  padStart (natToString d.year) 4 '0' ++ pad2 d.month ++ pad2 d.day ++ ("-") ++
    pad2 d.hours ++ pad2 d.minutes ++ pad2 d.seconds

/-- A present, non-empty (truthy) string, or `none`. -/
def truthyOpt : Option String → Option String
  | some s => if s = ("") then none else some s
  | none => none

/-- First truthy (non-empty, present) revision source, if any. -/
def firstTruthyRevision (githubSha giteaSha ciCommitSha : Option String) :
    Option String :=
  match truthyOpt githubSha with
  | some s => some s
  | none =>
    match truthyOpt giteaSha with
    | some s => some s
    | none => truthyOpt ciCommitSha

/-- Modelled from the spec: the revision truncated to its first 7
characters, with the literal `unknown` substituted when no revision
source is available. -/
def specRevision (githubSha giteaSha ciCommitSha : Option String) : String :=
  match firstTruthyRevision githubSha giteaSha ciCommitSha with
  | some r => strTake r 7
  | none => ("unknown")

/-! ### Concrete fixtures used by witnesses and counterexamples -/

/-- A pointer holding a junction to an existing release directory with a
file inside it. -/
def junctionFS1 : FS := fun q =>
  if q = ("deploy/current") then some (Entry.junction ("deploy/releases/r1"))
  else if q = ("deploy/releases/r1") then some Entry.dir
  else if q = ("deploy/releases/r1/app.js") then some Entry.file
  else none

/-- A pointer slot occupied by a plain directory (the unsafe state),
with a file inside it. -/
def plainDirFS : FS := fun q =>
  if q = ("deploy/current") then some Entry.dir
  else if q = ("deploy/current/data.txt") then some Entry.file
  else none

/-- A pointer holding a dangling junction: the redirect exists but its
target does not. -/
def danglingFS : FS := fun q =>
  if q = ("deploy/current") then some (Entry.junction ("deploy/releases/gone"))
  else none

/-- The empty directory-tree filesystem. -/
def emptyDirFS : DirFS := fun _ => none

/-- Oracle whose every attempt receives a 200 response. -/
def envOk200 : Nat → AttemptOutcome := fun _ => AttemptOutcome.response 200

/-- Oracle whose every attempt fails at the transport level. -/
def envNetFail : Nat → AttemptOutcome := fun _ => AttemptOutcome.netFailure ("Network error")

/-- Oracle failing transport-side on attempt 1 and answering 201 from
attempt 2 on. -/
def envFailThen201 : Nat → AttemptOutcome := fun i =>
  if i = 1 then AttemptOutcome.netFailure ("connect ECONNREFUSED")
  else AttemptOutcome.response 201

/-- A wall-clock reading with a three-digit year. -/
def dateYear999 : DateTime :=
  { year := 999, month := 1, day := 1, hours := 0, minutes := 0, seconds := 0 }

/-- A contemporary wall-clock reading. -/
def dateTypical : DateTime :=
  { year := 2026, month := 10, day := 12, hours := 3, minutes := 4, seconds := 5 }

/-! ## Helper lemmas -/

/-- Unfolding of the fuelled resolver at positive fuel. -/
theorem resolveExists_eq (fs : FS) (n : Nat) (p : String) (hn : n ≠ 0) :
    resolveExists fs n p =
      (match fs p with
       | none => false
       | some Entry.file => true
       | some Entry.dir => true
       | some (Entry.junction t) => resolveExists fs (n - 1) t) := by
  cases n with
  | zero => exact absurd rfl hn
  | succ m => rfl

/-- A path holding a non-redirect entry passes the `fs.access` probe. -/
theorem fsAccessOk_of_nonlink (fs : FS) (p : String) (e : Entry)
    (he : fs p = some e) (hne : ∀ t, e ≠ Entry.junction t) :
    fsAccessOk fs p = true := by
  rw [fsAccessOk, resolveExists_eq fs 40 p (by decide), he]
  cases e with
  | file => rfl
  | dir => rfl
  | junction t => exact absurd rfl (hne t)

/-- A dangling redirect fails the `fs.access` probe: the probe follows
the redirect and finds nothing. -/
theorem fsAccessOk_dangling (fs : FS) (p t : String)
    (hp : fs p = some (Entry.junction t)) (ht : fs t = none) :
    fsAccessOk fs p = false := by
  rw [fsAccessOk, resolveExists_eq fs 40 p (by decide), hp]
  show resolveExists fs 39 t = false
  rw [resolveExists_eq fs 39 t (by decide), ht]

/-! ## Claims about the active pointer -/

/-- C1: removing a pointer that holds a redirect succeeds, deletes exactly
the redirect entry at the pointer path, and leaves every other path — in
particular everything reachable through the redirect's former target —
unchanged. -/
theorem C1_remove_deletes_only_pointer_entry (fs : FS) (p t : String)
    (h : fs p = some (Entry.junction t)) :
    ∃ fs2, remove fs p = Except.ok fs2 ∧ fs2 p = none ∧
      ∀ q, q ≠ p → fs2 q = fs q := by
  refine ⟨fun q => if q = p then none else fs q, ?_, ?_, ?_⟩
  · simp [remove, fsUnlink, h]
  · simp
  · intro q hq
    simp [hq]

/-- C1 witness: removing the junction of a concrete filesystem. -/
theorem C1_remove_deletes_only_pointer_entry_witness :
    junctionFS1 ("deploy/current") = some (Entry.junction ("deploy/releases/r1")) ∧
    (∃ fs2, remove junctionFS1 ("deploy/current") = Except.ok fs2 ∧
      fs2 ("deploy/current") = none ∧
      ∀ q, q ≠ ("deploy/current") → fs2 q = junctionFS1 q) :=
  ⟨rfl, C1_remove_deletes_only_pointer_entry junctionFS1 ("deploy/current")
    ("deploy/releases/r1") rfl⟩

/-- C2: a swap on a pointer path occupied by a plain file or plain
directory raises the unsafe-pointer-state error and returns the
filesystem exactly as it was: nothing is removed, no redirect is
created. -/
theorem C2_swap_nonredirect_fails_without_mutation (fs : FS) (p newPath : String)
    (h : fs p = some Entry.file ∨ fs p = some Entry.dir) :
    update fs p newPath =
      (Except.error (JsError.err (p ++
        (" exists but is not a junction. Manual intervention required to avoid data loss."))),
       fs) := by
  have hacc : fsAccessOk fs p = true := by
    rcases h with h | h
    · exact fsAccessOk_of_nonlink fs p Entry.file h (fun t hc => Entry.noConfusion hc)
    · exact fsAccessOk_of_nonlink fs p Entry.dir h (fun t hc => Entry.noConfusion hc)
  have hij : isJunction fs p = Except.ok false := by
    rcases h with h | h <;> simp [isJunction, fsLstat, h, Entry.isSymbolicLink]
  simp [update, hacc, hij]

/-- C2 witness: a pointer slot occupied by a plain directory. -/
theorem C2_swap_nonredirect_fails_without_mutation_witness :
    (plainDirFS ("deploy/current") = some Entry.file ∨
      plainDirFS ("deploy/current") = some Entry.dir) ∧
    update plainDirFS ("deploy/current") ("deploy/releases/r2") =
      (Except.error (JsError.err (("deploy/current") ++
        (" exists but is not a junction. Manual intervention required to avoid data loss."))),
       plainDirFS) :=
  ⟨Or.inr rfl, C2_swap_nonredirect_fails_without_mutation plainDirFS
    ("deploy/current") ("deploy/releases/r2") (Or.inr rfl)⟩

/-- C10: on a dangling redirect the swap's existence probe (which follows
the redirect) reports absence, so the stale redirect is not removed; the
subsequent creation fails with `EEXIST` wrapped in the create error, and
the filesystem — dangling redirect included — is returned unchanged. -/
theorem C10_dangling_redirect_swap_fails (fs : FS) (p t newPath : String)
    (hp : fs p = some (Entry.junction t)) (ht : fs t = none) :
    fsAccessOk fs p = false ∧
    update fs p newPath =
      (Except.error (JsError.err (("Failed to create junction: ") ++ ("EEXIST"))), fs) := by
  have hacc := fsAccessOk_dangling fs p t hp ht
  refine ⟨hacc, ?_⟩
  simp [update, hacc, create, fsSymlink, hp]

/-- C10 witness: a concrete dangling junction. -/
theorem C10_dangling_redirect_swap_fails_witness :
    danglingFS ("deploy/current") = some (Entry.junction ("deploy/releases/gone")) ∧
    danglingFS ("deploy/releases/gone") = none ∧
    (fsAccessOk danglingFS ("deploy/current") = false ∧
      update danglingFS ("deploy/current") ("deploy/releases/r2") =
        (Except.error (JsError.err (("Failed to create junction: ") ++ ("EEXIST"))),
         danglingFS)) :=
  ⟨rfl, rfl, C10_dangling_redirect_swap_fails danglingFS ("deploy/current")
    ("deploy/releases/gone") ("deploy/releases/r2") rfl rfl⟩

/-- C7 counterexample: a pointer path occupied by a plain directory is a
genuine (non-absence) `readlink` failure — the error code is `EINVAL`,
not `ENOENT` — yet `getTarget` returns `undefined` instead of
propagating the error; it cannot throw at all. -/
theorem C7_counterexample_swallows_io_failure :
    plainDirFS ("deploy/current") = some Entry.dir ∧
    fsReadlink plainDirFS ("deploy/current") = Except.error ("EINVAL") ∧
    getTarget plainDirFS ("deploy/current") = none :=
  ⟨rfl, rfl, rfl⟩

/-- C7 (amended): the read-side target helper returns the resolved
redirect target (trailing backslashes stripped) when the pointer holds a
redirect, and returns `undefined` in every other case — absence and
genuine I/O failures alike — never throwing. -/
theorem C7_target_total_never_throws (fs : FS) (p : String) :
    getTarget fs p =
      (match fs p with
       | some (Entry.junction t) => some (stripTrailingBackslashes t)
       | _ => none) := by
  cases h : fs p with
  | none => simp [getTarget, fsReadlink, h]
  | some e => cases e <;> simp [getTarget, fsReadlink, h]

/-! ## Health verifier lemmas -/

/-- A request whose recorded error is truthy was a transport-level
failure and carries the sentinel status code 0. -/
theorem transport_statusCode_zero (url : String) (ts : Int) (o : AttemptOutcome)
    (h : strTruthy (performHealthCheckRequest url ts o).error = true) :
    (performHealthCheckRequest url ts o).statusCode = 0 := by
  cases o <;> simp_all [performHealthCheckRequest, strTruthy]

theorem countRequests_append (l1 l2 : List Event) :
    countRequests (l1 ++ l2) = countRequests l1 + countRequests l2 :=
  List.countP_append _ _ _

theorem countWaits_append (l1 l2 : List Event) :
    countWaits (l1 ++ l2) = countWaits l1 + countWaits l2 :=
  List.countP_append _ _ _

theorem countRequests_cons_request (l : List Event) :
    countRequests (Event.request :: l) = countRequests l + 1 := by
  simp [countRequests, List.countP_cons, isRequestEvent]

theorem countWaits_cons_request (l : List Event) :
    countWaits (Event.request :: l) = countWaits l := by
  simp [countWaits, List.countP_cons, isWaitEvent]

theorem countRequests_iw (c : Prop) [Decidable c] (i : Int) :
    countRequests (if c then [Event.intervalWait i] else []) = 0 := by
  split <;> rfl

theorem countWaits_iw (c : Prop) [Decidable c] (i : Int) :
    countWaits (if c then [Event.intervalWait i] else []) = (if c then 1 else 0) := by
  split <;> rfl

theorem countRequests_delay (c : Prop) [Decidable c] (d : Int) :
    countRequests (if c then [Event.initialDelay d] else []) = 0 := by
  split <;> rfl

theorem countWaits_delay (c : Prop) [Decidable c] (d : Int) :
    countWaits (if c then [Event.initialDelay d] else []) = 0 := by
  split <;> rfl

/-- Loop step when the request records a truthy error: the error is
remembered, the status recorded, an interval wait is taken unless this
was the last allowed attempt, and the loop continues. -/
theorem healthLoop_step_truthy (url range : String) (ts iv : Int) (retries : Nat)
    (env : Nat → AttemptOutcome) (m attempt : Nat) (ls : Option Int) (le : Option String)
    (hb : strTruthy (performHealthCheckRequest url ts (env attempt)).error = true) :
    (healthLoop url range ts iv retries env (m + 1) attempt ls le).1 =
      (healthLoop url range ts iv retries env m (attempt + 1)
        (some (performHealthCheckRequest url ts (env attempt)).statusCode)
        ((performHealthCheckRequest url ts (env attempt)).error)).1 ∧
    (healthLoop url range ts iv retries env (m + 1) attempt ls le).2 =
      Event.request ::
        ((if attempt < retries then [Event.intervalWait iv] else []) ++
          (healthLoop url range ts iv retries env m (attempt + 1)
            (some (performHealthCheckRequest url ts (env attempt)).statusCode)
            ((performHealthCheckRequest url ts (env attempt)).error)).2) := by
  constructor <;> simp [healthLoop, hb]

/-- Loop step when a response is received but its status is outside the
range: an "outside expected range" failure is recorded and the loop
continues. -/
theorem healthLoop_step_outrange (url range : String) (ts iv : Int) (retries : Nat)
    (env : Nat → AttemptOutcome) (m attempt : Nat) (ls : Option Int) (le : Option String)
    (hb : strTruthy (performHealthCheckRequest url ts (env attempt)).error = false)
    (hr : isStatusCodeInRange (performHealthCheckRequest url ts (env attempt)).statusCode range =
      Except.ok false) :
    (healthLoop url range ts iv retries env (m + 1) attempt ls le).1 =
      (healthLoop url range ts iv retries env m (attempt + 1)
        (some (performHealthCheckRequest url ts (env attempt)).statusCode)
        (some (("Status code ") ++
          intToString (performHealthCheckRequest url ts (env attempt)).statusCode ++
          (" is outside expected range ") ++ range))).1 ∧
    (healthLoop url range ts iv retries env (m + 1) attempt ls le).2 =
      Event.request ::
        ((if attempt < retries then [Event.intervalWait iv] else []) ++
          (healthLoop url range ts iv retries env m (attempt + 1)
            (some (performHealthCheckRequest url ts (env attempt)).statusCode)
            (some (("Status code ") ++
              intToString (performHealthCheckRequest url ts (env attempt)).statusCode ++
              (" is outside expected range ") ++ range))).2) := by
  constructor <;> simp [healthLoop, hb, hr]

/-- Loop step for any failing attempt (transport failure or out-of-range
response), given that the range parses. -/
theorem healthLoop_step_fail (url range : String) (ts iv : Int) (retries : Nat)
    (env : Nat → AttemptOutcome) (mn mx : Int)
    (hp : parseCodeRange range = Except.ok (mn, mx))
    (m attempt : Nat) (ls : Option Int) (le : Option String)
    (hfa : attemptSucceeds mn mx url ts (env attempt) = false) :
    ∃ le2,
      (healthLoop url range ts iv retries env (m + 1) attempt ls le).1 =
        (healthLoop url range ts iv retries env m (attempt + 1)
          (some (performHealthCheckRequest url ts (env attempt)).statusCode) le2).1 ∧
      (healthLoop url range ts iv retries env (m + 1) attempt ls le).2 =
        Event.request ::
          ((if attempt < retries then [Event.intervalWait iv] else []) ++
            (healthLoop url range ts iv retries env m (attempt + 1)
              (some (performHealthCheckRequest url ts (env attempt)).statusCode) le2).2) := by
  cases hb : strTruthy (performHealthCheckRequest url ts (env attempt)).error with
  | true =>
    exact ⟨(performHealthCheckRequest url ts (env attempt)).error,
      healthLoop_step_truthy url range ts iv retries env m attempt ls le hb⟩
  | false =>
    have hnot : ¬(mn ≤ (performHealthCheckRequest url ts (env attempt)).statusCode ∧
        (performHealthCheckRequest url ts (env attempt)).statusCode ≤ mx) := by
      intro hc
      have hsu : attemptSucceeds mn mx url ts (env attempt) = true := by
        simp [attemptSucceeds, hb, hc.1, hc.2]
      rw [hsu] at hfa
      exact Bool.noConfusion hfa
    have hr : isStatusCodeInRange (performHealthCheckRequest url ts (env attempt)).statusCode
        range = Except.ok false := by
      simp [isStatusCodeInRange, hp, decide_eq_false hnot]
    exact ⟨_, healthLoop_step_outrange url range ts iv retries env m attempt ls le hb hr⟩

/-- Loop step when a response is received and its status lies in the
parsed range: immediate success reporting the current attempt number. -/
theorem healthLoop_step_success (url range : String) (ts iv : Int) (retries : Nat)
    (env : Nat → AttemptOutcome) (mn mx s : Int) (m attempt : Nat)
    (ls : Option Int) (le : Option String)
    (hp : parseCodeRange range = Except.ok (mn, mx))
    (henv : env attempt = AttemptOutcome.response s)
    (hs1 : mn ≤ s) (hs2 : s ≤ mx) :
    (healthLoop url range ts iv retries env (m + 1) attempt ls le).1 =
      Except.ok { success := true, statusCode := some s, attempts := attempt,
                  error := none } ∧
    (healthLoop url range ts iv retries env (m + 1) attempt ls le).2 = [Event.request] := by
  constructor <;>
    simp [healthLoop, henv, performHealthCheckRequest, strTruthy, isStatusCodeInRange,
      hp, hs1, hs2]

/-- Loop step when a response is received but the range string does not
parse: the range error propagates out of the loop, after the request was
already issued. -/
theorem healthLoop_step_invalid (url range : String) (ts iv : Int) (retries : Nat)
    (env : Nat → AttemptOutcome) (s : Int) (m attempt : Nat)
    (ls : Option Int) (le : Option String) (e : String)
    (hp : parseCodeRange range = Except.error e)
    (henv : env attempt = AttemptOutcome.response s) :
    (healthLoop url range ts iv retries env (m + 1) attempt ls le).1 = Except.error e ∧
    (healthLoop url range ts iv retries env (m + 1) attempt ls le).2 = [Event.request] := by
  constructor <;>
    simp [healthLoop, henv, performHealthCheckRequest, strTruthy, isStatusCodeInRange, hp]

/-- If every attempt before `k` fails and attempt `k` receives an
in-range response, the loop returns success at attempt `k` having issued
exactly the requests and waits of attempts `attempt..k`. -/
theorem healthLoop_first_success (url range : String) (ts iv : Int) (retries : Nat)
    (env : Nat → AttemptOutcome) (mn mx s : Int) (k : Nat)
    (hp : parseCodeRange range = Except.ok (mn, mx))
    (hk2 : k ≤ retries)
    (henv : env k = AttemptOutcome.response s)
    (hs1 : mn ≤ s) (hs2 : s ≤ mx) :
    ∀ remaining attempt ls le,
      attempt + remaining = retries + 1 →
      attempt ≤ k →
      (∀ i, attempt ≤ i → i < k → attemptSucceeds mn mx url ts (env i) = false) →
      (healthLoop url range ts iv retries env remaining attempt ls le).1 =
        Except.ok { success := true, statusCode := some s, attempts := k,
                    error := none } ∧
      countRequests (healthLoop url range ts iv retries env remaining attempt ls le).2 =
        k + 1 - attempt ∧
      countWaits (healthLoop url range ts iv retries env remaining attempt ls le).2 =
        k - attempt := by
  intro remaining
  induction remaining with
  | zero =>
    intro attempt ls le hsum hak _
    exfalso
    omega
  | succ m ih =>
    intro attempt ls le hsum hak hfail
    rcases Nat.eq_or_lt_of_le hak with heq | hlt
    · subst heq
      obtain ⟨h1, h2⟩ := healthLoop_step_success url range ts iv retries env mn mx s m
        attempt ls le hp henv hs1 hs2
      rw [h1, h2]
      refine ⟨rfl, ?_, ?_⟩
      · have hc : countRequests [Event.request] = 1 := rfl
        omega
      · have hc : countWaits [Event.request] = 0 := rfl
        omega
    · obtain ⟨le2, h1, h2⟩ := healthLoop_step_fail url range ts iv retries env mn mx hp
        m attempt ls le (hfail attempt le_rfl hlt)
      obtain ⟨g1, g2, g3⟩ := ih (attempt + 1)
        (some (performHealthCheckRequest url ts (env attempt)).statusCode) le2
        (by omega) (by omega) (fun i hi1 hi2 => hfail i (by omega) hi2)
      rw [h1, h2, countRequests_cons_request, countRequests_append, countRequests_iw,
        countWaits_cons_request, countWaits_append, countWaits_iw,
        if_pos (show attempt < retries by omega), g1, g2, g3]
      refine ⟨rfl, by omega, by omega⟩

/-- If every attempt from `attempt` through `retries` fails, the loop
exhausts its budget and returns a failure record with
`attempts = retries` and an error message present. -/
theorem healthLoop_exhaustion (url range : String) (ts iv : Int) (retries : Nat)
    (env : Nat → AttemptOutcome) (mn mx : Int)
    (hp : parseCodeRange range = Except.ok (mn, mx)) :
    ∀ remaining attempt ls le,
      attempt + remaining = retries + 1 →
      (∀ i, attempt ≤ i → i ≤ retries → attemptSucceeds mn mx url ts (env i) = false) →
      ∃ sc msg, (healthLoop url range ts iv retries env remaining attempt ls le).1 =
        Except.ok { success := false, statusCode := sc, attempts := retries,
                    error := some msg } := by
  intro remaining
  induction remaining with
  | zero =>
    intro attempt ls le _ _
    exact ⟨ls, jsOrStr le ("Health check failed"), rfl⟩
  | succ m ih =>
    intro attempt ls le hsum hfail
    obtain ⟨le2, h1, _⟩ := healthLoop_step_fail url range ts iv retries env mn mx hp
      m attempt ls le (hfail attempt le_rfl (by omega))
    rw [h1]
    exact ih (attempt + 1) _ le2 (by omega) (fun i hi1 hi2 => hfail i (by omega) hi2)

/-- If every attempt from `attempt` through `retries` fails at the
transport level, the loop returns a failure record whose status code is
the transport sentinel 0 (when at least one attempt ran). -/
theorem healthLoop_all_transport (url range : String) (ts iv : Int) (retries : Nat)
    (env : Nat → AttemptOutcome) :
    ∀ remaining attempt ls le,
      attempt + remaining = retries + 1 →
      (∀ i, attempt ≤ i → i ≤ retries →
        strTruthy (performHealthCheckRequest url ts (env i)).error = true) →
      ∃ msg, (healthLoop url range ts iv retries env remaining attempt ls le).1 =
        Except.ok { success := false,
                    statusCode := (if remaining = 0 then ls else some 0),
                    attempts := retries, error := some msg } := by
  intro remaining
  induction remaining with
  | zero =>
    intro attempt ls le _ _
    exact ⟨jsOrStr le ("Health check failed"), rfl⟩
  | succ m ih =>
    intro attempt ls le hsum hfail
    have hb := hfail attempt le_rfl (by omega)
    obtain ⟨h1, _⟩ := healthLoop_step_truthy url range ts iv retries env m attempt ls le hb
    rw [h1, transport_statusCode_zero url ts (env attempt) hb]
    obtain ⟨msg, hmsg⟩ := ih (attempt + 1) (some 0)
      ((performHealthCheckRequest url ts (env attempt)).error)
      (by omega) (fun i hi1 hi2 => hfail i (by omega) hi2)
    refine ⟨msg, ?_⟩
    rw [hmsg]
    have hifs : (if m = 0 then (some (0 : Int)) else some 0) = some 0 := by
      split <;> rfl
    simp [hifs]

/-- Every normally-returned result of the loop has its error field
present exactly when it reports failure. -/
theorem healthLoop_error_iff_failure (url range : String) (ts iv : Int) (retries : Nat)
    (env : Nat → AttemptOutcome) :
    ∀ remaining attempt ls le r,
      (healthLoop url range ts iv retries env remaining attempt ls le).1 = Except.ok r →
      (r.error.isSome = true ↔ r.success = false) := by
  intro remaining
  induction remaining with
  | zero =>
    intro attempt ls le r h
    simp only [healthLoop, Except.ok.injEq] at h
    rw [← h]
    simp
  | succ m ih =>
    intro attempt ls le r h
    cases hb : strTruthy (performHealthCheckRequest url ts (env attempt)).error with
    | true =>
      rw [(healthLoop_step_truthy url range ts iv retries env m attempt ls le hb).1] at h
      exact ih (attempt + 1) _ _ r h
    | false =>
      cases hr : isStatusCodeInRange (performHealthCheckRequest url ts (env attempt)).statusCode
          range with
      | error e =>
        rw [show (healthLoop url range ts iv retries env (m + 1) attempt ls le).1 =
            Except.error e by simp [healthLoop, hb, hr]] at h
        exact Except.noConfusion h
      | ok b =>
        cases b with
        | true =>
          rw [show (healthLoop url range ts iv retries env (m + 1) attempt ls le).1 = Except.ok { success := true, statusCode := some (performHealthCheckRequest url ts (env attempt)).statusCode, attempts := attempt, error := none } by simp [healthLoop, hb, hr]] at h
          rw [← Except.ok.inj h]
          simp
        | false =>
          rw [show (healthLoop url range ts iv retries env (m + 1) attempt ls le).1 =
              (healthLoop url range ts iv retries env m (attempt + 1)
                (some (performHealthCheckRequest url ts (env attempt)).statusCode)
                (some (("Status code ") ++
                  intToString (performHealthCheckRequest url ts (env attempt)).statusCode ++
                  (" is outside expected range ") ++ range))).1
              by simp [healthLoop, hb, hr]] at h
          exact ih (attempt + 1) _ _ r h

/-! ## Claims about the health verifier -/

/-- C3 counterexample: with the malformed range string `invalid`, a run
whose first attempt receives a response does raise the invalid-range
error — but only after one HTTP request was already issued (the trace
counts one request); and a run whose attempts all fail transport-side
never raises the invalid-range error at all, returning an ordinary
failure result instead. -/
theorem C3_counterexample_request_precedes_validation :
    parseCodeRange ("invalid") =
      Except.error ("Invalid health check code range: invalid. Expected format: \"200-299\"") ∧
    (performHealthCheck ("http://app/health") ("invalid") 5 1 0 0 envOk200).1 =
      Except.error ("Invalid health check code range: invalid. Expected format: \"200-299\"") ∧
    countRequests (performHealthCheck ("http://app/health") ("invalid") 5 1 0 0 envOk200).2 = 1 ∧
    (performHealthCheck ("http://app/health") ("invalid") 5 1 0 0 envNetFail).1 =
      Except.ok { success := false, statusCode := some 0, attempts := 1,
                  error := some ("Network error") } :=
  ⟨rfl, rfl, rfl, rfl⟩

/-- C3 (amended): when the accepted-range string does not parse into two
integers, the verifier does not fail before network I/O; it issues the
request first, and the invalid-range error surfaces on the first attempt
that receives an HTTP response — with exactly one request issued when
that is the first attempt. -/
theorem C3_amended_invalid_range_raised_after_request (url range : String)
    (ts delay iv : Int) (retries : Nat) (env : Nat → AttemptOutcome)
    (e : String) (s : Int)
    (hp : parseCodeRange range = Except.error e)
    (henv : env 1 = AttemptOutcome.response s)
    (hr : 1 ≤ retries) :
    (performHealthCheck url range ts retries delay iv env).1 = Except.error e ∧
    countRequests (performHealthCheck url range ts retries delay iv env).2 = 1 := by
  obtain ⟨m, hm⟩ : ∃ m, retries = m + 1 := ⟨retries - 1, by omega⟩
  subst hm
  obtain ⟨h1, h2⟩ := healthLoop_step_invalid url range ts iv (m + 1) env s m 1 none none e
    hp henv
  refine ⟨h1, ?_⟩
  rw [show (performHealthCheck url range ts (m + 1) delay iv env).2 =
      (if delay > 0 then [Event.initialDelay delay] else []) ++
        (healthLoop url range ts iv (m + 1) env (m + 1) 1 none none).2 from rfl,
    h2, countRequests_append, countRequests_delay]
  rfl

/-- C3 amended witness: the `invalid` range with a first-attempt 200
response. -/
theorem C3_amended_invalid_range_raised_after_request_witness :
    parseCodeRange ("invalid") =
      Except.error ("Invalid health check code range: invalid. Expected format: \"200-299\"") ∧
    envOk200 1 = AttemptOutcome.response 200 ∧
    ((performHealthCheck ("http://app/health") ("invalid") 5 2 0 0 envOk200).1 =
        Except.error ("Invalid health check code range: invalid. Expected format: \"200-299\"") ∧
      countRequests (performHealthCheck ("http://app/health") ("invalid") 5 2 0 0 envOk200).2 = 1) :=
  ⟨rfl, rfl, C3_amended_invalid_range_raised_after_request ("http://app/health") ("invalid")
    5 0 0 2 envOk200 ("Invalid health check code range: invalid. Expected format: \"200-299\"")
    200 rfl rfl (by decide)⟩

/-- C4 counterexample: a run whose only attempt fails at the transport
level returns `statusCode = some 0` — the field is present and holds the
sentinel 0, not absent as the claim states. -/
theorem C4_counterexample_statusCode_present_as_zero :
    (performHealthCheck ("http://app/health") ("200-299") 5 1 0 0 envNetFail).1 =
      Except.ok { success := false, statusCode := some 0, attempts := 1,
                  error := some ("Network error") } ∧
    (∀ r, (performHealthCheck ("http://app/health") ("200-299") 5 1 0 0 envNetFail).1 =
      Except.ok r → r.statusCode ≠ none) := by
  refine ⟨rfl, ?_⟩
  intro r h
  rw [← Except.ok.inj h]
  intro hc
  exact Option.noConfusion hc

/-- C4 (amended): when every attempt of a run with at least one attempt
fails at the transport level (no HTTP response ever received), the
returned result has `success = false` and `statusCode = some 0` — the
sentinel status 0 recorded by the transport-error path — rather than an
absent status code. -/
theorem C4_amended_all_transport_failures_record_zero (url range : String)
    (ts delay iv : Int) (retries : Nat) (env : Nat → AttemptOutcome)
    (hr : 1 ≤ retries)
    (hfail : ∀ i, 1 ≤ i → i ≤ retries →
      strTruthy (performHealthCheckRequest url ts (env i)).error = true) :
    ∃ msg, (performHealthCheck url range ts retries delay iv env).1 =
      Except.ok { success := false, statusCode := some 0, attempts := retries,
                  error := some msg } := by
  obtain ⟨msg, h⟩ := healthLoop_all_transport url range ts iv retries env retries 1
    none none (by omega) hfail
  refine ⟨msg, ?_⟩
  rw [show (performHealthCheck url range ts retries delay iv env).1 =
      (healthLoop url range ts iv retries env retries 1 none none).1 from rfl, h]
  have hne : retries ≠ 0 := by omega
  simp [hne]

/-- C4 amended witness: two transport failures. -/
theorem C4_amended_all_transport_failures_record_zero_witness :
    (1 ≤ 2) ∧
    (∀ i, 1 ≤ i → i ≤ 2 →
      strTruthy (performHealthCheckRequest ("http://app/health") 5 (envNetFail i)).error = true) ∧
    (∃ msg, (performHealthCheck ("http://app/health") ("200-299") 5 2 0 0 envNetFail).1 =
      Except.ok { success := false, statusCode := some 0, attempts := 2,
                  error := some msg }) :=
  ⟨by decide, fun i _ _ => rfl,
    C4_amended_all_transport_failures_record_zero ("http://app/health") ("200-299")
      5 0 0 2 envNetFail (by decide) (fun i _ _ => rfl)⟩

/-- C5: if every attempt before `k` fails and attempt `k` is the first to
receive a status in the inclusive accepted range, the verifier returns
immediately with `success = true` and `attempts = k`, having issued
exactly `k` requests and `k - 1` inter-attempt waits. -/
theorem C5_first_in_range_success_returns_immediately (url range : String)
    (ts delay iv : Int) (retries k : Nat) (env : Nat → AttemptOutcome) (mn mx s : Int)
    (hp : parseCodeRange range = Except.ok (mn, mx))
    (hk1 : 1 ≤ k) (hk2 : k ≤ retries)
    (hfail : ∀ i, 1 ≤ i → i < k → attemptSucceeds mn mx url ts (env i) = false)
    (henv : env k = AttemptOutcome.response s)
    (hs1 : mn ≤ s) (hs2 : s ≤ mx) :
    (performHealthCheck url range ts retries delay iv env).1 =
      Except.ok { success := true, statusCode := some s, attempts := k, error := none } ∧
    countRequests (performHealthCheck url range ts retries delay iv env).2 = k ∧
    countWaits (performHealthCheck url range ts retries delay iv env).2 = k - 1 := by
  obtain ⟨g1, g2, g3⟩ := healthLoop_first_success url range ts iv retries env mn mx s k
    hp hk2 henv hs1 hs2 retries 1 none none (by omega) hk1 hfail
  refine ⟨g1, ?_, ?_⟩
  · rw [show (performHealthCheck url range ts retries delay iv env).2 =
        (if delay > 0 then [Event.initialDelay delay] else []) ++
          (healthLoop url range ts iv retries env retries 1 none none).2 from rfl,
      countRequests_append, countRequests_delay, g2]
    omega
  · rw [show (performHealthCheck url range ts retries delay iv env).2 =
        (if delay > 0 then [Event.initialDelay delay] else []) ++
          (healthLoop url range ts iv retries env retries 1 none none).2 from rfl,
      countWaits_append, countWaits_delay, g3]
    omega

/-- C5 witness: transport failure then a 201 inside `200-299` on attempt
2 of 3. -/
theorem C5_first_in_range_success_returns_immediately_witness :
    parseCodeRange ("200-299") = Except.ok (200, 299) ∧
    (∀ i, 1 ≤ i → i < 2 →
      attemptSucceeds 200 299 ("http://app/health") 5 (envFailThen201 i) = false) ∧
    envFailThen201 2 = AttemptOutcome.response 201 ∧
    ((performHealthCheck ("http://app/health") ("200-299") 5 3 0 1 envFailThen201).1 =
        Except.ok { success := true, statusCode := some 201, attempts := 2, error := none } ∧
      countRequests (performHealthCheck ("http://app/health") ("200-299") 5 3 0 1 envFailThen201).2 = 2 ∧
      countWaits (performHealthCheck ("http://app/health") ("200-299") 5 3 0 1 envFailThen201).2 = 2 - 1) :=
  ⟨rfl, by intro i h1 h2; interval_cases i; rfl, rfl,
    C5_first_in_range_success_returns_immediately ("http://app/health") ("200-299")
      5 0 1 3 2 envFailThen201 200 299 201 rfl (by decide) (by decide)
      (by intro i h1 h2; interval_cases i; rfl) rfl (by decide) (by decide)⟩

/-- C6: a run with at least one attempt in which no attempt succeeds
returns a result with `success = false`, `attempts = retries` and a
present error message; and for every normally-returned result of the
verifier, the error field is present exactly when `success` is false. -/
theorem C6_exhaustion_failure_and_error_presence (url range : String)
    (ts delay iv : Int) (retries : Nat) (env : Nat → AttemptOutcome) (mn mx : Int) :
    (parseCodeRange range = Except.ok (mn, mx) → 1 ≤ retries →
      (∀ i, 1 ≤ i → i ≤ retries → attemptSucceeds mn mx url ts (env i) = false) →
      ∃ sc msg, (performHealthCheck url range ts retries delay iv env).1 =
        Except.ok { success := false, statusCode := sc, attempts := retries,
                    error := some msg }) ∧
    (∀ r, (performHealthCheck url range ts retries delay iv env).1 = Except.ok r →
      (r.error.isSome = true ↔ r.success = false)) := by
  constructor
  · intro hp hr hfail
    obtain ⟨sc, msg, h⟩ := healthLoop_exhaustion url range ts iv retries env mn mx hp
      retries 1 none none (by omega) hfail
    exact ⟨sc, msg, h⟩
  · intro r h
    exact healthLoop_error_iff_failure url range ts iv retries env retries 1 none none r h

/-- C6 witness: two transport failures exhaust a two-attempt budget. -/
theorem C6_exhaustion_failure_and_error_presence_witness :
    parseCodeRange ("200-299") = Except.ok (200, 299) ∧
    (∀ i, 1 ≤ i → i ≤ 2 →
      attemptSucceeds 200 299 ("http://app/health") 5 (envNetFail i) = false) ∧
    (∃ sc msg, (performHealthCheck ("http://app/health") ("200-299") 5 2 0 0 envNetFail).1 =
      Except.ok { success := false, statusCode := sc, attempts := 2,
                  error := some msg }) :=
  ⟨rfl, fun i _ _ => rfl,
    (C6_exhaustion_failure_and_error_presence ("http://app/health") ("200-299")
      5 0 0 2 envNetFail 200 299).1 rfl (by decide) (fun i _ _ => rfl)⟩

/-! ## Release store lemmas -/

/-- Recursive directory creation never changes or removes an existing
entry. -/
theorem mkdirRecAux_preserves (l : List String) :
    ∀ fs pre fs2, mkdirRecAux fs pre l = Except.ok fs2 →
      ∀ q e, fs q = some e → fs2 q = some e := by
  induction l with
  | nil =>
    intro fs pre fs2 h q e hq
    rw [← Except.ok.inj h]
    exact hq
  | cons c rest ih =>
    intro fs pre fs2 h q e hq
    cases hfc : fs (pre ++ [c]) with
    | some de =>
      cases de with
      | dir =>
        simp only [mkdirRecAux, hfc] at h
        exact ih fs (pre ++ [c]) fs2 h q e hq
      | file =>
        simp only [mkdirRecAux, hfc] at h
        split at h <;> exact Except.noConfusion h
    | none =>
      simp only [mkdirRecAux, hfc] at h
      have hne : q ≠ pre ++ [c] := by
        intro hcon
        rw [hcon, hfc] at hq
        exact Option.noConfusion hq
      refine ih _ (pre ++ [c]) fs2 h q e ?_
      show (if q = pre ++ [c] then some DirEntry.dir else fs q) = some e
      rw [if_neg hne]
      exact hq

/-- A second recursive creation of the same path over the filesystem a
successful first creation produced succeeds and changes nothing. -/
theorem mkdirRecAux_idempotent (l : List String) :
    ∀ fs pre fs2, mkdirRecAux fs pre l = Except.ok fs2 →
      mkdirRecAux fs2 pre l = Except.ok fs2 := by
  induction l with
  | nil =>
    intro fs pre fs2 _
    rfl
  | cons c rest ih =>
    intro fs pre fs2 h
    cases hfc : fs (pre ++ [c]) with
    | some de =>
      cases de with
      | dir =>
        simp only [mkdirRecAux, hfc] at h
        have hd2 : fs2 (pre ++ [c]) = some DirEntry.dir :=
          mkdirRecAux_preserves rest fs (pre ++ [c]) fs2 h _ _ hfc
        simp only [mkdirRecAux, hd2]
        exact ih fs (pre ++ [c]) fs2 h
      | file =>
        simp only [mkdirRecAux, hfc] at h
        split at h <;> exact Except.noConfusion h
    | none =>
      simp only [mkdirRecAux, hfc] at h
      have hd1 : (fun q => if q = pre ++ [c] then some DirEntry.dir else fs q)
          (pre ++ [c]) = some DirEntry.dir := by simp
      have hd2 : fs2 (pre ++ [c]) = some DirEntry.dir :=
        mkdirRecAux_preserves rest _ (pre ++ [c]) fs2 h _ _ hd1
      simp only [mkdirRecAux, hd2]
      exact ih _ (pre ++ [c]) fs2 h

/-- C8: if allocating a release directory succeeds, both that allocation
and an immediate re-allocation with the same root and id return the same
path `{root}/releases/{id}`, and the second call does not error. -/
theorem C8_allocation_idempotent (fs : DirFS) (deployRoot : List String) (id : String)
    (h : ∃ pr, createReleaseDirectory fs deployRoot id = Except.ok pr) :
    allocTwice fs deployRoot id =
      Except.ok (pathJoin (deployRoot ++ [("releases"), id]),
                 pathJoin (deployRoot ++ [("releases"), id])) := by
  obtain ⟨⟨p, fs1⟩, hpr⟩ := h
  have hmk1 : mkdirRecursive fs (deployRoot ++ [("releases"), id]) = Except.ok fs1 := by
    cases hm : mkdirRecursive fs (deployRoot ++ [("releases"), id]) with
    | ok fs3 =>
      simp only [createReleaseDirectory, hm] at hpr
      obtain ⟨-, h2⟩ := Prod.mk.inj (Except.ok.inj hpr)
      rw [h2]
    | error e =>
      simp only [createReleaseDirectory, hm] at hpr
      exact Except.noConfusion hpr
  have hmk2 : mkdirRecursive fs1 (deployRoot ++ [("releases"), id]) = Except.ok fs1 :=
    mkdirRecAux_idempotent _ fs [] fs1 hmk1
  simp only [allocTwice, createReleaseDirectory, hmk1, hmk2]

/-- C8 witness: allocating twice from the empty filesystem. -/
theorem C8_allocation_idempotent_witness :
    (∃ pr, createReleaseDirectory emptyDirFS [("deploy")] ("r1") = Except.ok pr) ∧
    allocTwice emptyDirFS [("deploy")] ("r1") =
      Except.ok (pathJoin ([("deploy")] ++ [("releases"), ("r1")]),
                 pathJoin ([("deploy")] ++ [("releases"), ("r1")])) :=
  ⟨⟨_, rfl⟩, C8_allocation_idempotent emptyDirFS [("deploy")] ("r1") ⟨_, rfl⟩⟩

/-! ## Identity generator lemmas -/

theorem natDigitsAux_zero (fuel : Nat) : natDigitsAux fuel 0 = [] := by
  cases fuel <;> rfl

theorem natDigitsAux_step (fuel n : Nat) (h : n ≠ 0) :
    natDigitsAux (fuel + 1) n =
      natDigitsAux fuel (n / 10) ++ [Char.ofNat (48 + n % 10)] := by
  cases n with
  | zero => exact absurd rfl h
  | succ m => rfl

/-- A four-digit number renders as four characters. -/
theorem natDigitsAux_len_four (f n : Nat) (h1 : 1000 ≤ n) (h2 : n ≤ 9999) :
    (natDigitsAux (f + 4) n).length = 4 := by
  have e1 : natDigitsAux (f + 4) n =
      natDigitsAux (f + 3) (n / 10) ++ [Char.ofNat (48 + n % 10)] :=
    natDigitsAux_step (f + 3) n (by omega)
  have e2 : natDigitsAux (f + 3) (n / 10) =
      natDigitsAux (f + 2) (n / 10 / 10) ++ [Char.ofNat (48 + n / 10 % 10)] :=
    natDigitsAux_step (f + 2) (n / 10) (by omega)
  have e3 : natDigitsAux (f + 2) (n / 10 / 10) =
      natDigitsAux (f + 1) (n / 10 / 10 / 10) ++ [Char.ofNat (48 + n / 10 / 10 % 10)] :=
    natDigitsAux_step (f + 1) (n / 10 / 10) (by omega)
  have e4 : natDigitsAux (f + 1) (n / 10 / 10 / 10) =
      natDigitsAux f (n / 10 / 10 / 10 / 10) ++ [Char.ofNat (48 + n / 10 / 10 / 10 % 10)] :=
    natDigitsAux_step f (n / 10 / 10 / 10) (by omega)
  have e5 : n / 10 / 10 / 10 / 10 = 0 := by omega
  rw [e1, e2, e3, e4, e5, natDigitsAux_zero]
  simp

theorem natToString_length_four (n : Nat) (h1 : 1000 ≤ n) (h2 : n ≤ 9999) :
    (natToString n).length = 4 := by
  rw [natToString, if_neg (show ¬n = 0 by omega)]
  show (natDigitsAux n n).length = 4
  obtain ⟨f, rfl⟩ : ∃ f, n = f + 4 := ⟨n - 4, by omega⟩
  exact natDigitsAux_len_four f (f + 4) h1 h2

theorem padStart_of_length_ge (s : String) (len : Nat) (c : Char)
    (h : len ≤ s.length) : padStart s len c = s := by
  rw [padStart, if_pos h]

theorem jsOrStr_eq_getD (g : Option String) (b : String) :
    jsOrStr g b = (truthyOpt g).getD b := by
  cases g with
  | none => rfl
  | some s =>
    by_cases h : s = ("") <;> simp [jsOrStr, truthyOpt, h]

/-- The code's falsy chain plus truncation computes exactly the spec's
"first 7 characters of the first available revision, else `unknown`". -/
theorem getShortSha_eq_specRevision (g gi ci : Option String) :
    getShortSha g gi ci = specRevision g gi ci := by
  rw [getShortSha, jsOrStr_eq_getD, jsOrStr_eq_getD, jsOrStr_eq_getD,
    specRevision, firstTruthyRevision]
  cases truthyOpt g with
  | some s => rfl
  | none =>
    cases truthyOpt gi with
    | some s => rfl
    | none =>
      cases truthyOpt ci with
      | some s => rfl
      | none => rfl

/-! ## Claims about the identity generator -/

/-- C9 counterexample: for the valid wall-clock reading with year 999 the
generated id renders the year with three digits, so the timestamp is not
of the zero-padded four-digit-year `YYYYMMDD-HHMMSS` form the claim
states. -/
theorem C9_counterexample_three_digit_year :
    releaseId dateYear999 none none none = ("9990101-000000-unknown") ∧
    specTimestamp dateYear999 ++ ("-") ++ specRevision none none none =
      ("09990101-000000-unknown") ∧
    ("9990101-000000-unknown" : String) ≠ ("09990101-000000-unknown") :=
  ⟨rfl, rfl, by decide⟩

/-- C9 (amended): for every wall-clock reading whose year already has
four decimal digits (1000–9999, which covers all contemporary times) the
generated id is `{timestamp}-{revision7}`, with the timestamp in
zero-padded `YYYYMMDD-HHMMSS` form and `revision7` the first 7
characters of the first available revision source, the literal `unknown`
when none is available; years outside that band render unpadded with
however many digits they have. -/
theorem C9_amended_release_id_format (d : DateTime) (g gi ci : Option String)
    (h1 : 1000 ≤ d.year) (h2 : d.year ≤ 9999) :
    releaseId d g gi ci = specTimestamp d ++ ("-") ++ specRevision g gi ci := by
  rw [releaseId, getShortSha_eq_specRevision, generateTimestamp, specTimestamp,
    padStart_of_length_ge _ 4 _ (le_of_eq (natToString_length_four d.year h1 h2).symm)]

/-- C9 amended witness: a contemporary date and a long revision. -/
theorem C9_amended_release_id_format_witness :
    1000 ≤ dateTypical.year ∧ dateTypical.year ≤ 9999 ∧
    releaseId dateTypical (some ("0123456789abcdef")) none none =
      specTimestamp dateTypical ++ ("-") ++
        specRevision (some ("0123456789abcdef")) none none :=
  ⟨by decide, by decide,
    C9_amended_release_id_format dateTypical (some ("0123456789abcdef")) none none
      (by decide) (by decide)⟩

end Ploy
